import Mathlib

/-!
Shallow embedding of `src/Part2_dashboard.py`, a Dash dashboard over an
in-memory table of automobile sales records.

Modelling conventions:
* a pandas null (NaN / NA) is `Option.none`;
* numeric sales and expenditure figures are rationals;
* a pandas `groupby(k, as_index=False)` with the default `sort=True` and
  `dropna=True` is modelled by collecting the distinct non-null keys,
  sorting them ascending, and aggregating the rows of each key group;
* pandas `mean` / `sum` skip null values inside a group (`skipna`),
  modelled with `List.filterMap`;
* `sort_values` is modelled as a stable sort by the given key.
-/

namespace AutoDash

/-- A cleaned sales record: one row of the dataframe after the cleaning
block (lines 20-32 of the source). `recession` is a plain `Int` because
`fillna(0).astype(int)` removes every null from that column, and `month`
is a plain `String` because `astype(str)` renders a null cell as the
string "nan". The remaining columns can still hold nulls after cleaning. -/
structure SalesRecord where
  year : Option Int
  month : String
  recession : Int
  automobileSales : Option ℚ
  vehicleType : Option String
  advertisingExpenditure : Option ℚ
  unemploymentRate : Option ℚ
deriving DecidableEq

/-- One row of the source CSV as read by `pd.read_csv`. For the three
columns the script indexes unconditionally (Year, Month, Recession) a
field of `none` models an empty cell. For the four columns the script
synthesizes when absent (lines 25-32), the outer `Option` is `none` when
the whole column is missing from the CSV and `some c` when the column is
present with cell `c`, itself `none` for an empty cell. -/
structure RawRow where
  year : Option String
  month : Option String
  recession : Option String
  automobileSales : Option (Option ℚ)
  vehicleType : Option (Option String)
  advertisingExpenditure : Option (Option ℚ)
  unemploymentRate : Option (Option ℚ)
deriving DecidableEq

/-- The numeric value of a decimal digit character, or `none` for any
other character. -/
def charDigit (c : Char) : Option Nat :=
  if 48 ≤ c.toNat ∧ c.toNat ≤ 57 then some (c.toNat - 48) else none

/-- Folds decimal digits into a number, failing on the first non-digit. -/
def parseNatAux : List Char → Nat → Option Nat
  | [], acc => some acc
  | c :: cs, acc =>
    match charDigit c with
    | some d => parseNatAux cs (acc * 10 + d)
    | none => none

/-- Parsing of a string as a (possibly negative) integer literal: the
model of Python's `int(str)` as used by `pd.to_numeric` and
`astype(int)`. A non-empty all-digit string, optionally preceded by a
minus sign, parses; everything else fails. -/
def parseIntStr (s : String) : Option Int :=
  match s.data with
  | [] => none
  | c :: cs =>
    if c = '-' then
      match cs with
      | [] => none
      | _ => (parseNatAux cs 0).map (fun n => -(n : Int))
    else
      (parseNatAux (c :: cs) 0).map (fun n => (n : Int))

/-- Lexicographic code-point comparison of character lists: `true` when
the first list is less than or equal to the second. -/
def charListLE : List Char → List Char → Bool
  | [], _ => true
  | _ :: _, [] => false
  | a :: as, b :: bs =>
    if a.toNat < b.toNat then true
    else if b.toNat < a.toNat then false
    else charListLE as bs

/-- The order Python compares strings in (code-point lexicographic), which
is the order pandas sorts string group keys by. -/
def strLE (a b : String) : Prop := charListLE a.data b.data = true

instance : DecidableRel strLE :=
  fun a b => inferInstanceAs (Decidable (charListLE a.data b.data = true))

/-- The cleaning block, lines 20-32 of the source, applied to one row:
Year is parsed to an integer with unparsable cells becoming null
(`to_numeric(errors="coerce").astype("Int64")`), Month is cast to a
string (a null cell prints as "nan"), Recession is parsed with nulls
and failures defaulting to 0 (`fillna(0).astype(int)`), and each of the
four optional columns is synthesized with its fixed default only when
the whole column is absent; cells of a present column are kept as-is,
nulls included. -/
def cleanRow (r : RawRow) : SalesRecord where
  year := r.year.bind parseIntStr
  month := r.month.getD "nan"
  recession := (r.recession.bind parseIntStr).getD 0
  automobileSales :=
    match r.automobileSales with
    | none => some 0
    | some c => c
  vehicleType :=
    match r.vehicleType with
    | none => some "Unknown"
    | some c => c
  advertisingExpenditure :=
    match r.advertisingExpenditure with
    | none => some 0
    | some c => c
  unemploymentRate :=
    match r.unemploymentRate with
    | none => none
    | some c => c

/-- The whole load-and-clean step: the Dataset produced from the raw CSV
rows. -/
def loadClean (rows : List RawRow) : List SalesRecord :=
  rows.map cleanRow

/-- Arithmetic mean of a list of rationals (pandas `mean` on the
non-null values of a group). -/
def qmean (l : List ℚ) : ℚ := l.sum / (l.length : ℚ)

/-- The rows of the group with key `k` under the (nullable) key
function `key`. -/
def groupRows {K : Type} [DecidableEq K] (key : SalesRecord → Option K) (k : K)
    (ds : List SalesRecord) : List SalesRecord :=
  ds.filter (fun r => decide (key r = some k))

/-- The distinct non-null keys of `ds` under `key`, sorted ascending:
the index of a pandas `groupby` with the default `sort=True` and
`dropna=True`. -/
def groupKeys {K : Type} [DecidableEq K] (key : SalesRecord → Option K)
    (le : K → K → Prop) [DecidableRel le] (ds : List SalesRecord) : List K :=
  List.insertionSort le (ds.filterMap key).dedup

/-- `groupby(key)[val].mean()`: one row per distinct non-null key, with
the mean of the non-null `val` entries of the group. -/
def groupAggMean {K : Type} [DecidableEq K] (key : SalesRecord → Option K)
    (le : K → K → Prop) [DecidableRel le] (val : SalesRecord → Option ℚ)
    (ds : List SalesRecord) : List (K × ℚ) :=
  (groupKeys key le ds).map fun k => (k, qmean ((groupRows key k ds).filterMap val))

/-- `groupby(key)[val].sum()`: one row per distinct non-null key, with
the sum of the non-null `val` entries of the group. -/
def groupAggSum {K : Type} [DecidableEq K] (key : SalesRecord → Option K)
    (le : K → K → Prop) [DecidableRel le] (val : SalesRecord → Option ℚ)
    (ds : List SalesRecord) : List (K × ℚ) :=
  (groupKeys key le ds).map fun k => (k, ((groupRows key k ds).filterMap val).sum)

/-- Line 42 of the source: `sorted(df["Year"].dropna().unique())`, the
year-dropdown options. -/
def yearsOf (ds : List SalesRecord) : List Int :=
  List.insertionSort (· ≤ ·) (ds.filterMap (fun r => r.year)).dedup

/-- `years[-1] if years else None`: the dropdown's initial value (line 68)
and the defensive fallback inside `update_charts` (lines 133-134). -/
def defaultYear (ds : List SalesRecord) : Option Int :=
  (yearsOf ds).getLast?

/-- Line 148: `df[df["Year"] == year_value]`. A pandas comparison of the
Year column with `None` is everywhere false, so a missing year selects
no rows. -/
def yearFilter (yv : Option Int) (ds : List SalesRecord) : List SalesRecord :=
  match yv with
  | some y => ds.filter (fun r => decide (r.year = some y))
  | none => []

/-- Lines 139-140: yearly mean of Automobile_Sales over the full
dataset. -/
def yearlyAvg (ds : List SalesRecord) : List (Int × ℚ) :=
  groupAggMean (fun r => r.year) (· ≤ ·) (fun r => r.automobileSales) ds

/-- Lines 151-152: monthly totals of Automobile_Sales for the selected
year, before the numeric reordering attempt. -/
def monthlyRaw (yv : Option Int) (ds : List SalesRecord) : List (String × ℚ) :=
  groupAggSum (fun r => some r.month) strLE (fun r => r.automobileSales)
    (yearFilter yv ds)

/-- The integer a grouped month row sorts by in line 156 (defaulting to 0
where the month does not parse; the default is never used on the sorting
path because the sort only runs when every month parses). -/
def monthKey (p : String × ℚ) : Int := (parseIntStr p.1).getD 0

/-- Comparison of grouped month rows by the numeric value of the month. -/
def monthNumLE (a b : String × ℚ) : Prop := monthKey a ≤ monthKey b

instance : DecidableRel monthNumLE :=
  fun a b => inferInstanceAs (Decidable (monthKey a ≤ monthKey b))

instance : IsTotal (String × ℚ) monthNumLE :=
  ⟨fun a b => le_total (monthKey a) (monthKey b)⟩

instance : IsTrans (String × ℚ) monthNumLE :=
  ⟨fun _ _ _ h h2 => le_trans h h2⟩

/-- Lines 151-158: the monthly totals, reordered ascending by the numeric
month value when `astype(int)` succeeds on every grouped month, and left
in the groupby order when any month fails to parse (the `except: pass`
fallback). -/
def monthlyTotals (yv : Option Int) (ds : List SalesRecord) : List (String × ℚ) :=
  if (monthlyRaw yv ds).all (fun p => (parseIntStr p.1).isSome) then
    List.insertionSort monthNumLE (monthlyRaw yv ds)
  else
    monthlyRaw yv ds

/-- Lines 166-167: mean Automobile_Sales by Vehicle_Type for the selected
year. -/
def byTypeAvg (yv : Option Int) (ds : List SalesRecord) : List (String × ℚ) :=
  groupAggMean (fun r => r.vehicleType) strLE (fun r => r.automobileSales)
    (yearFilter yv ds)

/-- Lines 174-175: total Advertising_Expenditure by Vehicle_Type for the
selected year. -/
def advSum (yv : Option Int) (ds : List SalesRecord) : List (String × ℚ) :=
  groupAggSum (fun r => r.vehicleType) strLE
    (fun r => r.advertisingExpenditure) (yearFilter yv ds)

/-- Line 183: `df[df["Recession"] == 1]`. -/
def recFilter (ds : List SalesRecord) : List SalesRecord :=
  ds.filter (fun r => decide (r.recession = 1))

/-- Lines 186-187: mean Automobile_Sales by Year over recession rows. -/
def recYearlyAvg (ds : List SalesRecord) : List (Int × ℚ) :=
  groupAggMean (fun r => r.year) (· ≤ ·) (fun r => r.automobileSales)
    (recFilter ds)

/-- Lines 194-195: mean Automobile_Sales by Vehicle_Type over recession
rows. -/
def recTypeAvg (ds : List SalesRecord) : List (String × ℚ) :=
  groupAggMean (fun r => r.vehicleType) strLE (fun r => r.automobileSales)
    (recFilter ds)

/-- Lines 202-203: total Advertising_Expenditure by Vehicle_Type over
recession rows. -/
def recAdvSum (ds : List SalesRecord) : List (String × ℚ) :=
  groupAggSum (fun r => r.vehicleType) strLE
    (fun r => r.advertisingExpenditure) (recFilter ds)

/-- Line 211: `rec.dropna(subset=["unemployment_rate"])`, the rows of the
unemployment-vs-sales scatter. -/
def recScatterRows (ds : List SalesRecord) : List SalesRecord :=
  (recFilter ds).filter (fun r => (r.unemploymentRate).isSome)

/-- A chart descriptor: either the `_empty_fig` "No data" placeholder of
lines 35-39, or a populated chart of the kind the corresponding
`plotly.express` call builds, carrying the aggregation rows and title. -/
inductive Fig where
  | noData (title : String)
  | lineYear (rows : List (Int × ℚ)) (title : String)
  | lineMonth (rows : List (String × ℚ)) (title : String)
  | barVals (rows : List (String × ℚ)) (title : String)
  | pieVals (rows : List (String × ℚ)) (title : String)
  | scatterPts (rows : List SalesRecord) (title : String)
deriving DecidableEq

/-- Whether a chart descriptor is the "No data" placeholder. -/
def Fig.isNoData : Fig → Bool
  | .noData _ => true
  | _ => false

/-- Rendering of the (possibly missing) selected year inside a chart
title, as the f-strings of the source do. -/
def optYearStr : Option Int → String
  | some y => toString y
  | none => "None"

/-- Lines 138-180: the four figures of the Yearly Statistics branch,
taking the already-defaulted selected year. -/
def yearlyCharts (yv : Option Int) (ds : List SalesRecord) :
    Fig × Fig × Fig × Fig :=
  (if (yearlyAvg ds).isEmpty then Fig.noData "Yearly Automobile Sales (Average)"
   else Fig.lineYear (yearlyAvg ds) "Yearly Automobile Sales (Average over Months)",
   if (monthlyTotals yv ds).isEmpty then
     Fig.noData ("Total Monthly Automobile Sales - " ++ optYearStr yv)
   else
     Fig.lineMonth (monthlyTotals yv ds)
       ("Total Monthly Automobile Sales - " ++ optYearStr yv),
   if (byTypeAvg yv ds).isEmpty then
     Fig.noData ("Average Vehicles Sold by Vehicle Type - " ++ optYearStr yv)
   else
     Fig.barVals (byTypeAvg yv ds)
       ("Average Vehicles Sold by Vehicle Type - " ++ optYearStr yv),
   if (advSum yv ds).isEmpty then
     Fig.noData ("Ad Expenditure Share by Vehicle Type - " ++ optYearStr yv)
   else
     Fig.pieVals (advSum yv ds)
       ("Ad Expenditure Share by Vehicle Type - " ++ optYearStr yv))

/-- Lines 183-223: the four figures of the Recession Period Statistics
branch; the selected year is never consulted. -/
def recessionCharts (ds : List SalesRecord) : Fig × Fig × Fig × Fig :=
  (if (recYearlyAvg ds).isEmpty then
     Fig.noData "Avg Automobile Sales during Recession (Year-wise)"
   else
     Fig.lineYear (recYearlyAvg ds) "Avg Automobile Sales during Recession (Year-wise)",
   if (recTypeAvg ds).isEmpty then
     Fig.noData "Avg Vehicles Sold by Vehicle Type (Recession)"
   else
     Fig.barVals (recTypeAvg ds) "Avg Vehicles Sold by Vehicle Type (Recession)",
   if (recAdvSum ds).isEmpty then
     Fig.noData "Ad Expenditure Share by Vehicle Type (Recession)"
   else
     Fig.pieVals (recAdvSum ds) "Ad Expenditure Share by Vehicle Type (Recession)",
   if (recScatterRows ds).isEmpty then
     Fig.noData "Unemployment vs Sales (Recession)"
   else
     Fig.scatterPts (recScatterRows ds)
       "Unemployment vs Automobile Sales by Vehicle Type (Recession)")

/-- Lines 117-120: the callback enabling or disabling the year dropdown.
Returns the `disabled` flag and the help message. -/
def toggle_year_dropdown (report_type : String) : Bool × String :=
  if report_type = "Yearly Statistics" then
    (false, "Year is enabled for Yearly Statistics.")
  else
    (true, "Year is disabled for Recession Period Statistics.")

/-- Lines 131-223: the main plotting callback. A missing selected year is
defaulted to the last (maximum) available year when any year exists, and
the report-type string selects the branch by exact comparison with
"Yearly Statistics". -/
def effectiveYear (year_value : Option Int) (ds : List SalesRecord) : Option Int :=
  match year_value with
  | none => defaultYear ds
  | some y => some y

/-- Lines 131-223: the main plotting callback; lines 133-134 default a
missing selected year before the branch on the report-type string. -/
def update_charts (report_type : String) (year_value : Option Int)
    (ds : List SalesRecord) : Fig × Fig × Fig × Fig :=
  if report_type = "Yearly Statistics" then
    yearlyCharts (effectiveYear year_value ds) ds
  else recessionCharts ds

/-- Two runs of the main callback on identical inputs, for the
determinism round-trip. -/
def runAggregatorTwice (report_type : String) (year_value : Option Int)
    (ds : List SalesRecord) : (Fig × Fig × Fig × Fig) × (Fig × Fig × Fig × Fig) :=
  (update_charts report_type year_value ds,
   update_charts report_type year_value ds)

/-- The records of `ds` with the given (non-null) year: the subgroup the
spec's "filter Dataset to Year == selectedYear" denotes. -/
def yearSubgroup (y : Int) (ds : List SalesRecord) : List SalesRecord :=
  ds.filter (fun r => decide (r.year = some y))

/-- The records of the selected year carrying the given month label. -/
def monthSubgroup (y : Int) (m : String) (ds : List SalesRecord) :
    List SalesRecord :=
  (yearSubgroup y ds).filter (fun r => decide (r.month = m))

/-- The records of the selected year carrying the given vehicle type. -/
def typeSubgroup (y : Int) (t : String) (ds : List SalesRecord) :
    List SalesRecord :=
  (yearSubgroup y ds).filter (fun r => decide (r.vehicleType = some t))

/-- Concrete record used by the witnesses: year 2019, month "1",
no recession, 100 sales of type "A". -/
def recA : SalesRecord :=
  { year := some 2019, month := "1", recession := 0,
    automobileSales := some 100, vehicleType := some "A",
    advertisingExpenditure := some 5, unemploymentRate := none }

/-- Concrete record used by the witnesses: year 2019, month "2",
no recession, 200 sales of type "A". -/
def recB : SalesRecord :=
  { year := some 2019, month := "2", recession := 0,
    automobileSales := some 200, vehicleType := some "A",
    advertisingExpenditure := some 3, unemploymentRate := none }

/-- Concrete record whose Year failed to parse. -/
def recNullYear : SalesRecord :=
  { year := none, month := "nan", recession := 0,
    automobileSales := some 7, vehicleType := some "B",
    advertisingExpenditure := some 1, unemploymentRate := none }

/-- Concrete two-record dataset from the spec's testable scenario. -/
def dsA : List SalesRecord := [recA, recB]

/-- Concrete dataset with a null-Year record added. -/
def dsB : List SalesRecord := [recA, recB, recNullYear]

/-- Concrete raw CSV row whose Vehicle_Type column is present but whose
cell is empty, and whose other cells are well formed. -/
def rawNullTypeCell : RawRow :=
  { year := some "2020", month := some "1", recession := some "0",
    automobileSales := some (some 5), vehicleType := some none,
    advertisingExpenditure := some (some 1), unemploymentRate := some none }

/-- Concrete raw CSV row whose Vehicle_Type column is absent entirely and
whose Recession cell is unparsable. -/
def rawMissingTypeCol : RawRow :=
  { year := some "2020", month := some "1", recession := some "abc",
    automobileSales := some (some 5), vehicleType := none,
    advertisingExpenditure := some (some 1), unemploymentRate := none }

/-! ### General lemmas about the groupby model -/

theorem mem_groupKeys {K : Type} [DecidableEq K] (key : SalesRecord → Option K)
    (le : K → K → Prop) [inst : DecidableRel le] (ds : List SalesRecord) (k : K) :
    k ∈ groupKeys key le ds ↔ k ∈ ds.filterMap key := by
  unfold groupKeys
  rw [(List.perm_insertionSort le _).mem_iff, List.mem_dedup]

theorem nodup_groupKeys {K : Type} [DecidableEq K] (key : SalesRecord → Option K)
    (le : K → K → Prop) [inst : DecidableRel le] (ds : List SalesRecord) :
    (groupKeys key le ds).Nodup :=
  ((List.perm_insertionSort le _).nodup_iff).mpr (List.nodup_dedup _)

theorem map_fst_groupAggMean {K : Type} [DecidableEq K]
    (key : SalesRecord → Option K) (le : K → K → Prop) [inst : DecidableRel le]
    (val : SalesRecord → Option ℚ) (ds : List SalesRecord) :
    (groupAggMean key le val ds).map Prod.fst = groupKeys key le ds := by
  unfold groupAggMean
  rw [List.map_map]
  exact List.map_id _

theorem map_fst_groupAggSum {K : Type} [DecidableEq K]
    (key : SalesRecord → Option K) (le : K → K → Prop) [inst : DecidableRel le]
    (val : SalesRecord → Option ℚ) (ds : List SalesRecord) :
    (groupAggSum key le val ds).map Prod.fst = groupKeys key le ds := by
  unfold groupAggSum
  rw [List.map_map]
  exact List.map_id _

theorem mem_groupAggMean {K : Type} [DecidableEq K]
    {key : SalesRecord → Option K} {le : K → K → Prop} [inst : DecidableRel le]
    {val : SalesRecord → Option ℚ} {ds : List SalesRecord} {p : K × ℚ}
    (h : p ∈ groupAggMean key le val ds) :
    p.1 ∈ groupKeys key le ds
      ∧ p.2 = qmean ((groupRows key p.1 ds).filterMap val) := by
  unfold groupAggMean at h
  obtain ⟨k, hk, hp⟩ := List.mem_map.mp h
  cases hp
  exact ⟨hk, rfl⟩

theorem mem_groupAggSum {K : Type} [DecidableEq K]
    {key : SalesRecord → Option K} {le : K → K → Prop} [inst : DecidableRel le]
    {val : SalesRecord → Option ℚ} {ds : List SalesRecord} {p : K × ℚ}
    (h : p ∈ groupAggSum key le val ds) :
    p.1 ∈ groupKeys key le ds
      ∧ p.2 = ((groupRows key p.1 ds).filterMap val).sum := by
  unfold groupAggSum at h
  obtain ⟨k, hk, hp⟩ := List.mem_map.mp h
  cases hp
  exact ⟨hk, rfl⟩

theorem groupAggMean_mem {K : Type} [DecidableEq K]
    {key : SalesRecord → Option K} {le : K → K → Prop} [inst : DecidableRel le]
    (val : SalesRecord → Option ℚ) {ds : List SalesRecord} {k : K}
    (hk : k ∈ groupKeys key le ds) :
    (k, qmean ((groupRows key k ds).filterMap val)) ∈ groupAggMean key le val ds :=
  List.mem_map.mpr ⟨k, hk, rfl⟩

theorem groupAggSum_mem {K : Type} [DecidableEq K]
    {key : SalesRecord → Option K} {le : K → K → Prop} [inst : DecidableRel le]
    (val : SalesRecord → Option ℚ) {ds : List SalesRecord} {k : K}
    (hk : k ∈ groupKeys key le ds) :
    (k, ((groupRows key k ds).filterMap val).sum) ∈ groupAggSum key le val ds :=
  List.mem_map.mpr ⟨k, hk, rfl⟩

theorem mem_groupAggMean_iff {K : Type} [DecidableEq K]
    (key : SalesRecord → Option K) (le : K → K → Prop) [inst : DecidableRel le]
    (val : SalesRecord → Option ℚ) (ds : List SalesRecord) (k : K) :
    (∃ q, (k, q) ∈ groupAggMean key le val ds) ↔ ∃ r ∈ ds, key r = some k := by
  constructor
  · rintro ⟨q, hq⟩
    have h1 := (mem_groupAggMean hq).1
    rw [mem_groupKeys] at h1
    exact List.mem_filterMap.mp h1
  · intro h
    have hk : k ∈ groupKeys key le ds :=
      (mem_groupKeys key le ds k).mpr (List.mem_filterMap.mpr h)
    exact ⟨_, groupAggMean_mem val hk⟩

theorem mem_groupAggSum_iff {K : Type} [DecidableEq K]
    (key : SalesRecord → Option K) (le : K → K → Prop) [inst : DecidableRel le]
    (val : SalesRecord → Option ℚ) (ds : List SalesRecord) (k : K) :
    (∃ q, (k, q) ∈ groupAggSum key le val ds) ↔ ∃ r ∈ ds, key r = some k := by
  constructor
  · rintro ⟨q, hq⟩
    have h1 := (mem_groupAggSum hq).1
    rw [mem_groupKeys] at h1
    exact List.mem_filterMap.mp h1
  · intro h
    have hk : k ∈ groupKeys key le ds :=
      (mem_groupKeys key le ds k).mpr (List.mem_filterMap.mpr h)
    exact ⟨_, groupAggSum_mem val hk⟩

theorem filterMap_eq_map_of_isSome {α : Type} (v : α → Option ℚ) :
    ∀ l : List α, (∀ x ∈ l, (v x).isSome) →
      l.filterMap v = l.map (fun x => (v x).getD 0) := by
  intro l
  induction l with
  | nil => intro _; rfl
  | cons x xs ih =>
    intro h
    obtain ⟨q, hq⟩ :=
      Option.isSome_iff_exists.mp (h x (List.mem_cons_self x xs))
    simp only [List.filterMap_cons, hq, List.map_cons, Option.getD_some]
    exact congrArg (q :: ·) (ih fun y hy => h y (List.mem_cons_of_mem x hy))

theorem pairwise_le_getLast :
    ∀ l : List Int, l.Pairwise (· ≤ ·) → ∀ m, l.getLast? = some m →
      ∀ x ∈ l, x ≤ m := by
  intro l
  induction l with
  | nil => intro _ m hm; simp at hm
  | cons a t ih =>
    intro hp m hm x hx
    obtain ⟨ha, hp2⟩ := List.pairwise_cons.mp hp
    cases t with
    | nil =>
      simp only [List.getLast?_singleton, Option.some.injEq] at hm
      simp only [List.mem_singleton] at hx
      subst hm
      subst hx
      exact le_refl x
    | cons b t2 =>
      rw [List.getLast?_cons_cons] at hm
      have hmem : m ∈ b :: t2 := List.mem_of_mem_getLast? (by simp [hm])
      rcases List.mem_cons.mp hx with h | h
      · subst h
        exact ha m hmem
      · exact ih hp2 m hm x h

theorem mem_yearsOf (ds : List SalesRecord) (y : Int) :
    y ∈ yearsOf ds ↔ ∃ r ∈ ds, r.year = some y := by
  unfold yearsOf
  rw [(List.perm_insertionSort _ _).mem_iff, List.mem_dedup, List.mem_filterMap]

theorem monthlyTotals_perm (yv : Option Int) (ds : List SalesRecord) :
    (monthlyTotals yv ds).Perm (monthlyRaw yv ds) := by
  unfold monthlyTotals
  by_cases hc :
      (monthlyRaw yv ds).all (fun p => (parseIntStr p.1).isSome) = true
  · rw [if_pos hc]
    exact List.perm_insertionSort _ _
  · rw [if_neg hc]

theorem groupRows_month (m : String) (l : List SalesRecord) :
    groupRows (fun r => some r.month) m l =
      l.filter (fun r => decide (r.month = m)) := by
  unfold groupRows
  apply List.filter_congr
  intro r _
  simp

theorem recessionCharts_of_no_recession {ds : List SalesRecord}
    (h : recFilter ds = []) :
    recessionCharts ds =
      (Fig.noData "Avg Automobile Sales during Recession (Year-wise)",
       Fig.noData "Avg Vehicles Sold by Vehicle Type (Recession)",
       Fig.noData "Ad Expenditure Share by Vehicle Type (Recession)",
       Fig.noData "Unemployment vs Sales (Recession)") := by
  unfold recessionCharts recYearlyAvg recTypeAvg recAdvSum recScatterRows
  rw [h]
  rfl

/-! ### Claim theorems -/

/-- Claim C1: in Yearly mode the monthly aggregation filters the dataset
to the selected year, groups by Month, and sums Automobile_Sales per
month; when every grouped month is a numeric string the rows are ordered
ascending by the numeric month value, and when any grouped month is
non-numeric the groupby ordering is preserved unchanged, the fallback
never failing. -/
theorem C1_monthly_totals (y : Int) (ds : List SalesRecord) :
    (∀ p ∈ monthlyTotals (some y) ds,
        p.2 = ((monthSubgroup y p.1 ds).filterMap (fun r => r.automobileSales)).sum)
    ∧ (∀ m : String,
        (∃ q, (m, q) ∈ monthlyTotals (some y) ds)
          ↔ m ∈ (yearSubgroup y ds).map (fun r => r.month))
    ∧ ((∀ p ∈ monthlyRaw (some y) ds, (parseIntStr p.1).isSome) →
        List.Pairwise monthNumLE (monthlyTotals (some y) ds))
    ∧ ((∃ p ∈ monthlyRaw (some y) ds, parseIntStr p.1 = none) →
        monthlyTotals (some y) ds = monthlyRaw (some y) ds) := by
  have hperm := monthlyTotals_perm (some y) ds
  refine ⟨?_, ?_, ?_, ?_⟩
  · intro p hp
    have hp2 : p ∈ monthlyRaw (some y) ds := hperm.mem_iff.mp hp
    have h2 := (mem_groupAggSum hp2).2
    rw [h2, groupRows_month]
    rfl
  · intro m
    constructor
    · rintro ⟨q, hq⟩
      have hq2 : (m, q) ∈ monthlyRaw (some y) ds := hperm.mem_iff.mp hq
      have h1 := (mem_groupAggSum hq2).1
      rw [mem_groupKeys, List.mem_filterMap] at h1
      obtain ⟨r, hr, hrm⟩ := h1
      exact List.mem_map.mpr ⟨r, hr, Option.some.inj hrm⟩
    · intro hm
      obtain ⟨r, hr, hrm⟩ := List.mem_map.mp hm
      have hkey : m ∈ groupKeys (fun r => some r.month) strLE
          (yearFilter (some y) ds) :=
        (mem_groupKeys _ _ _ _).mpr (List.mem_filterMap.mpr ⟨r, hr, by rw [hrm]⟩)
      exact ⟨_, hperm.mem_iff.mpr (groupAggSum_mem _ hkey)⟩
  · intro hall
    have hc :
        (monthlyRaw (some y) ds).all (fun p => (parseIntStr p.1).isSome) = true :=
      List.all_eq_true.mpr hall
    unfold monthlyTotals
    rw [if_pos hc]
    exact List.sorted_insertionSort monthNumLE _
  · rintro ⟨p, hp, hnone⟩
    have hne :
        ¬((monthlyRaw (some y) ds).all (fun p => (parseIntStr p.1).isSome) = true) := by
      rw [List.all_eq_true]
      intro hforall
      have hps := hforall p hp
      rw [hnone] at hps
      simp at hps
    unfold monthlyTotals
    rw [if_neg hne]

/-- Claim C1 witness: on the spec's concrete two-row dataset every grouped
month is a numeric string and the monthly rows come out ordered by the
numeric month value. -/
theorem C1_monthly_totals_witness :
    (∀ p ∈ monthlyRaw (some 2019) dsA, (parseIntStr p.1).isSome)
    ∧ List.Pairwise monthNumLE (monthlyTotals (some 2019) dsA) :=
  ⟨by decide, (C1_monthly_totals 2019 dsA).2.2.1 (by decide)⟩

/-- Claim C2: for a year present in the dataset, the Yearly-mode
average-by-vehicle-type aggregation has exactly one row per distinct
vehicle type occurring among that year's records, and each row's value is
the arithmetic mean of Automobile_Sales over the subgroup's records. -/
theorem C2_avg_by_vehicle_type (Y : Int) (ds : List SalesRecord)
    (hY : ∃ r ∈ ds, r.year = some Y)
    (hsales : ∀ r ∈ ds, (r.automobileSales).isSome) :
    ((byTypeAvg (some Y) ds).map Prod.fst).Nodup
    ∧ (∀ t : String,
        t ∈ (byTypeAvg (some Y) ds).map Prod.fst
          ↔ some t ∈ (yearSubgroup Y ds).map (fun r => r.vehicleType))
    ∧ (∀ p ∈ byTypeAvg (some Y) ds,
        p.2 = ((typeSubgroup Y p.1 ds).map
                  (fun r => (r.automobileSales).getD 0)).sum
                / ((typeSubgroup Y p.1 ds).length : ℚ)) := by
  refine ⟨?_, ?_, ?_⟩
  · unfold byTypeAvg
    rw [map_fst_groupAggMean]
    exact nodup_groupKeys _ _ _
  · intro t
    unfold byTypeAvg
    rw [map_fst_groupAggMean, mem_groupKeys, List.mem_filterMap, List.mem_map]
    exact Iff.rfl
  · intro p hp
    have h2 := (mem_groupAggMean hp).2
    have hsub : ∀ r ∈ typeSubgroup Y p.1 ds, (r.automobileSales).isSome := by
      intro r hr
      exact hsales r (List.mem_of_mem_filter (List.mem_of_mem_filter hr))
    rw [h2]
    show qmean ((typeSubgroup Y p.1 ds).filterMap (fun r => r.automobileSales)) = _
    rw [filterMap_eq_map_of_isSome _ _ hsub]
    unfold qmean
    rw [List.length_map]

/-- Claim C2 witness at year 2019 of the concrete dataset. -/
theorem C2_avg_by_vehicle_type_witness :
    (∃ r ∈ dsA, r.year = some 2019)
    ∧ (∀ r ∈ dsA, (r.automobileSales).isSome)
    ∧ ((byTypeAvg (some 2019) dsA).map Prod.fst).Nodup :=
  ⟨by decide, by decide,
   (C2_avg_by_vehicle_type 2019 dsA (by decide) (by decide)).1⟩

/-- Claim C3: the Yearly-mode yearly-average chart aggregates the full
dataset independently of the selected year, lists the present years in
ascending order, and gives each year the arithmetic mean of
Automobile_Sales over its records. -/
theorem C3_yearly_avg (ds : List SalesRecord) (yv yw : Option Int)
    (hsales : ∀ r ∈ ds, (r.automobileSales).isSome) :
    (update_charts "Yearly Statistics" yv ds).1 =
      (update_charts "Yearly Statistics" yw ds).1
    ∧ List.Pairwise (fun a b : Int × ℚ => a.1 ≤ b.1) (yearlyAvg ds)
    ∧ (∀ y : Int,
        (∃ q, (y, q) ∈ yearlyAvg ds) ↔ some y ∈ ds.map (fun r => r.year))
    ∧ (∀ p ∈ yearlyAvg ds,
        p.2 = ((yearSubgroup p.1 ds).map
                  (fun r => (r.automobileSales).getD 0)).sum
                / ((yearSubgroup p.1 ds).length : ℚ)) := by
  refine ⟨rfl, ?_, ?_, ?_⟩
  · unfold yearlyAvg groupAggMean
    rw [List.pairwise_map]
    exact List.sorted_insertionSort (fun a b : Int => a ≤ b)
      ((ds.filterMap (fun r => r.year)).dedup)
  · intro y
    unfold yearlyAvg
    rw [mem_groupAggMean_iff, List.mem_map]
  · intro p hp
    have h2 := (mem_groupAggMean hp).2
    have hsub : ∀ r ∈ yearSubgroup p.1 ds, (r.automobileSales).isSome := by
      intro r hr
      exact hsales r (List.mem_of_mem_filter hr)
    rw [h2]
    show qmean ((yearSubgroup p.1 ds).filterMap (fun r => r.automobileSales)) = _
    rw [filterMap_eq_map_of_isSome _ _ hsub]
    unfold qmean
    rw [List.length_map]

/-- Claim C3 witness on the concrete dataset. -/
theorem C3_yearly_avg_witness :
    (∀ r ∈ dsA, (r.automobileSales).isSome)
    ∧ List.Pairwise (fun a b : Int × ℚ => a.1 ≤ b.1) (yearlyAvg dsA) :=
  ⟨by decide, (C3_yearly_avg dsA none none (by decide)).2.1⟩

/-- Claim C4 counterexample: a valid CSV row whose Vehicle_Type column is
present but whose cell is empty is left with a null Vehicle_Type by the
cleaning step, refuting the claim that every row of every valid CSV
source ends with a non-null Vehicle_Type. -/
theorem C4_counterexample : (cleanRow rawNullTypeCell).vehicleType = none :=
  rfl

/-- Claim C4 (amended): after cleaning, Recession is a non-null integer
defaulting to 0 when its cell is absent or unparsable, and Vehicle_Type
is non-null exactly when the Vehicle_Type column is absent from the
source (synthesized as "Unknown") or the row's own cell is non-null; a
null cell inside a present Vehicle_Type column stays null. -/
theorem C4_cleaning_defaults (r : RawRow) :
    (r.recession.bind parseIntStr = none → (cleanRow r).recession = 0)
    ∧ (r.vehicleType = none → (cleanRow r).vehicleType = some "Unknown")
    ∧ ((cleanRow r).vehicleType.isSome = true ↔ r.vehicleType ≠ some none) := by
  refine ⟨?_, ?_, ?_⟩
  · intro h
    simp [cleanRow, h]
  · intro h
    simp [cleanRow, h]
  · rcases hv : r.vehicleType with _ | c
    · simp [cleanRow, hv]
    · rcases c with _ | t
      · simp [cleanRow, hv]
      · simp [cleanRow, hv]

/-- Claim C4 witness: a row with the Vehicle_Type column absent and an
unparsable Recession cell cleans to the defaults. -/
theorem C4_cleaning_defaults_witness :
    (rawMissingTypeCol.vehicleType = none
       ∧ rawMissingTypeCol.recession.bind parseIntStr = none)
    ∧ ((cleanRow rawMissingTypeCol).vehicleType = some "Unknown"
       ∧ (cleanRow rawMissingTypeCol).recession = 0) :=
  ⟨⟨rfl, by decide⟩,
   (C4_cleaning_defaults rawMissingTypeCol).2.1 rfl,
   (C4_cleaning_defaults rawMissingTypeCol).1 (by decide)⟩

/-- Claim C5: on a dataset with no Recession == 1 record, each of the four
figures of the Recession branch is the "No data" placeholder, each
produced independently by its own empty-aggregation guard. -/
theorem C5_recession_no_data (ds : List SalesRecord) (yv : Option Int)
    (h : ∀ r ∈ ds, r.recession ≠ 1) :
    (update_charts "Recession Period Statistics" yv ds).1.isNoData = true
    ∧ (update_charts "Recession Period Statistics" yv ds).2.1.isNoData = true
    ∧ (update_charts "Recession Period Statistics" yv ds).2.2.1.isNoData = true
    ∧ (update_charts "Recession Period Statistics" yv ds).2.2.2.isNoData = true := by
  have hrec : recFilter ds = [] := by
    unfold recFilter
    rw [List.filter_eq_nil_iff]
    intro r hr
    simpa using h r hr
  have hupd :
      update_charts "Recession Period Statistics" yv ds = recessionCharts ds := by
    unfold update_charts
    rw [if_neg (by decide)]
  rw [hupd, recessionCharts_of_no_recession hrec]
  exact ⟨rfl, rfl, rfl, rfl⟩

/-- Claim C5 witness: the concrete dataset has no recession rows and the
first Recession-branch figure is the placeholder. -/
theorem C5_recession_no_data_witness :
    (∀ r ∈ dsA, r.recession ≠ 1)
    ∧ (update_charts "Recession Period Statistics" none dsA).1.isNoData = true :=
  ⟨by decide, (C5_recession_no_data dsA none (by decide)).1⟩

/-- Claim C6: the year-selector enablement callback is a function of the
report mode alone; the Recession report disables the selector and
surfaces the explanatory message, the Yearly report re-enables it. -/
theorem C6_toggle_pure :
    toggle_year_dropdown "Recession Period Statistics" =
      (true, "Year is disabled for Recession Period Statistics.")
    ∧ toggle_year_dropdown "Yearly Statistics" =
      (false, "Year is enabled for Yearly Statistics.") :=
  ⟨rfl, rfl⟩

/-- Claim C7: with at least one non-null Year in the dataset, the default
selected year is the maximum year present, and running Yearly mode with
no year selected equals running it with that maximum year. -/
theorem C7_default_year (ds : List SalesRecord)
    (h : ∃ r ∈ ds, (r.year).isSome) :
    ∃ m : Int, defaultYear ds = some m
      ∧ some m ∈ ds.map (fun r => r.year)
      ∧ (∀ r ∈ ds, ∀ y : Int, r.year = some y → y ≤ m)
      ∧ update_charts "Yearly Statistics" none ds =
          update_charts "Yearly Statistics" (some m) ds := by
  obtain ⟨r0, hr0, hy0⟩ := h
  obtain ⟨y0, hy0e⟩ := Option.isSome_iff_exists.mp hy0
  have hmem0 : y0 ∈ yearsOf ds := (mem_yearsOf ds y0).mpr ⟨r0, hr0, hy0e⟩
  have hne : yearsOf ds ≠ [] := by
    intro hnil
    rw [hnil] at hmem0
    exact List.not_mem_nil y0 hmem0
  obtain ⟨m, hm⟩ := Option.isSome_iff_exists.mp (List.getLast?_isSome.mpr hne)
  have hmm : m ∈ yearsOf ds := List.mem_of_mem_getLast? (by simp [hm])
  have hsorted : (yearsOf ds).Pairwise (· ≤ ·) := by
    unfold yearsOf
    exact List.sorted_insertionSort _ _
  refine ⟨m, hm, ?_, ?_, ?_⟩
  · obtain ⟨r, hr, hrm⟩ := (mem_yearsOf ds m).mp hmm
    exact List.mem_map.mpr ⟨r, hr, hrm⟩
  · intro r hr y hy
    exact pairwise_le_getLast (yearsOf ds) hsorted m hm y
      ((mem_yearsOf ds y).mpr ⟨r, hr, hy⟩)
  · show yearlyCharts ((yearsOf ds).getLast?) ds = yearlyCharts (some m) ds
    rw [hm]

/-- Claim C7 witness on the concrete dataset. -/
theorem C7_default_year_witness :
    (∃ r ∈ dsA, (r.year).isSome)
    ∧ ∃ m : Int, defaultYear dsA = some m
        ∧ some m ∈ dsA.map (fun r => r.year)
        ∧ (∀ r ∈ dsA, ∀ y : Int, r.year = some y → y ≤ m)
        ∧ update_charts "Yearly Statistics" none dsA =
            update_charts "Yearly Statistics" (some m) dsA :=
  ⟨by decide, C7_default_year dsA (by decide)⟩

/-- Claim C8: the aggregator is deterministic; two runs of the main
callback on the same dataset and selector state return identical
four-chart tuples, the model being a pure function of its inputs. -/
theorem C8_deterministic (report_type : String) (year_value : Option Int)
    (ds : List SalesRecord) :
    (runAggregatorTwice report_type year_value ds).1 =
      (runAggregatorTwice report_type year_value ds).2 :=
  rfl

/-- Claim C9: null-Year records are excluded from the yearly-average
grouping and from the year-dropdown options: every group key of chart
slot 1 is the Year of some record, a null-Year record belongs to no
year group, and the dropdown options are exactly the distinct non-null
years, without duplicates. -/
theorem C9_null_year_excluded (ds : List SalesRecord) :
    (∀ p ∈ yearlyAvg ds, some p.1 ∈ ds.map (fun r => r.year))
    ∧ (∀ r ∈ ds, r.year = none →
        ∀ p ∈ yearlyAvg ds, r ∉ groupRows (fun s => s.year) p.1 ds)
    ∧ (∀ y : Int, y ∈ yearsOf ds ↔ some y ∈ ds.map (fun r => r.year))
    ∧ (yearsOf ds).Nodup := by
  refine ⟨?_, ?_, ?_, ?_⟩
  · intro p hp
    have h1 := (mem_groupAggMean hp).1
    rw [mem_groupKeys, List.mem_filterMap] at h1
    obtain ⟨r, hr, hrm⟩ := h1
    exact List.mem_map.mpr ⟨r, hr, hrm⟩
  · intro r hr hnone p hp hmem
    have hdec := (List.mem_filter.mp hmem).2
    simp [hnone] at hdec
  · intro y
    rw [mem_yearsOf, List.mem_map]
  · unfold yearsOf
    exact ((List.perm_insertionSort _ _).nodup_iff).mpr (List.nodup_dedup _)

/-- Claim C9 witness: the concrete null-Year record lies outside the 2019
group of the yearly-average aggregation over the concrete dataset. -/
theorem C9_null_year_excluded_witness :
    (recNullYear ∈ dsB ∧ recNullYear.year = none)
    ∧ recNullYear ∉ groupRows (fun s => s.year) (2019 : Int) dsB :=
  ⟨⟨by decide, rfl⟩,
   (C9_null_year_excluded dsB).2.1 recNullYear (by decide) rfl
     ((2019 : Int), qmean ((groupRows (fun r => r.year) (2019 : Int) dsB).filterMap
        (fun r => r.automobileSales)))
     (groupAggMean_mem (fun r => r.automobileSales) (by decide))⟩

/-- Claim C10: any report-type string other than exactly
"Yearly Statistics" disables the year selector and takes the Recession
branch of the main callback. -/
theorem C10_non_yearly_branch (s : String) (h : s ≠ "Yearly Statistics")
    (yv : Option Int) (ds : List SalesRecord) :
    (toggle_year_dropdown s).1 = true
    ∧ update_charts s yv ds = recessionCharts ds := by
  constructor
  · unfold toggle_year_dropdown
    rw [if_neg h]
  · unfold update_charts
    rw [if_neg h]

/-- Claim C10 witness at the report type "zzz", which is neither of the
two dropdown options. -/
theorem C10_non_yearly_branch_witness :
    ("zzz" : String) ≠ "Yearly Statistics"
    ∧ ((toggle_year_dropdown "zzz").1 = true
       ∧ update_charts "zzz" none dsA = recessionCharts dsA) :=
  ⟨by decide, C10_non_yearly_branch "zzz" (by decide) none dsA⟩

end AutoDash
